import Mathlib

/-!
Verification of the GeoAPI Python interface layer (opengis metadata and
referencing modules).

The repository under verification is a pure declaration layer: abstract
classes exposing read-only properties, plus string-valued code-list
enumerations.  The shallow embedding below transcribes, per module, each
class declaration as a table entry recording its name, its direct base
classes, and its own declared properties with their annotated types, and
each code list as a Lean inductive together with its external string
tokens.  On top of the tables we define the derived notions a validating
implementation would rely on: the inherited property set of a class, the
subclass relation, covariant subtyping of property types, and a
conformance checker deciding whether a concrete instance value satisfies
a class interface.
-/

namespace GeoAPI

/-- Declared Python type of a property, as written in the source
annotations.  `pany` stands for a property declared with no return type
annotation at all. -/
inductive PyType where
  | pstr
  | pint
  | pfloat
  | pbool
  | pdatetime
  | ptimedelta
  | pany
  | enum (n : String)
  | cls (n : String)
  | seq (t : PyType)
  | opt (t : PyType)
  deriving DecidableEq

/-- One class declaration: class name, direct base classes, and the
properties declared in the class body itself (not inherited ones), in
source order, each with its annotated type. -/
structure ClassDecl where
  cname : String
  parents : List String
  props : List (String × PyType)
  deriving DecidableEq

/-- Code list `RoleCode` from `opengis/metadata/citation.py`: function
performed by the responsible party. -/
inductive RoleCode where
  | RESOURCE_PROVIDER
  | CUSTODIAN
  | OWNER
  | USER
  | DISTRIBUTOR
  | ORIGINATOR
  | POINT_OF_CONTACT
  | PRINCIPAL_INVESTIGATOR
  | PROCESSOR
  | PUBLISHER
  | AUTHOR
  | SPONSOR
  | CO_AUTHOR
  | COLLABORATOR
  | EDITOR
  | MEDIATOR
  | RIGHTS_HOLDER
  | CONTRIBUTOR
  | FUNDER
  | STAKEHOLDER
  deriving DecidableEq

/-- External string token of each `RoleCode` member, from the source. -/
def RoleCode.value : RoleCode → String
  | .RESOURCE_PROVIDER => "resourceProvider"
  | .CUSTODIAN => "custodian"
  | .OWNER => "owner"
  | .USER => "user"
  | .DISTRIBUTOR => "distributor"
  | .ORIGINATOR => "originator"
  | .POINT_OF_CONTACT => "pointOfContact"
  | .PRINCIPAL_INVESTIGATOR => "principalInvestigator"
  | .PROCESSOR => "processor"
  | .PUBLISHER => "publisher"
  | .AUTHOR => "author"
  | .SPONSOR => "sponsor"
  | .CO_AUTHOR => "coAuthor"
  | .COLLABORATOR => "collaborator"
  | .EDITOR => "editor"
  | .MEDIATOR => "mediator"
  | .RIGHTS_HOLDER => "rightsHolder"
  | .CONTRIBUTOR => "contributor"
  | .FUNDER => "funder"
  | .STAKEHOLDER => "stakeholder"

/-- All members of `RoleCode`, in source order. -/
def RoleCode.members : List RoleCode :=
  [.RESOURCE_PROVIDER, .CUSTODIAN, .OWNER, .USER, .DISTRIBUTOR, .ORIGINATOR,
   .POINT_OF_CONTACT, .PRINCIPAL_INVESTIGATOR, .PROCESSOR, .PUBLISHER,
   .AUTHOR, .SPONSOR, .CO_AUTHOR, .COLLABORATOR, .EDITOR, .MEDIATOR,
   .RIGHTS_HOLDER, .CONTRIBUTOR, .FUNDER, .STAKEHOLDER]

/-- Code list `MaintenanceFrequencyCode` from
`opengis/metadata/maintenance.py`: frequency with which modifications and
deletions are made to the data after it is first produced. -/
inductive MaintenanceFrequencyCode where
  | CONTINUAL
  | DAILY
  | WEEKLY
  | FORTNIGHTLY
  | MONTHLY
  | QUARTERLY
  | BIANNUALLY
  | ANNUALLY
  | AS_NEEDED
  | IRREGULAR
  | NOT_PLANNED
  | UNKNOWN
  | PERIODIC
  | SEMIMONTHLY
  | BIENNIALLY
  deriving DecidableEq

/-- External string token of each `MaintenanceFrequencyCode` member, from
the source. -/
def MaintenanceFrequencyCode.value : MaintenanceFrequencyCode → String
  | .CONTINUAL => "continual"
  | .DAILY => "daily"
  | .WEEKLY => "weekly"
  | .FORTNIGHTLY => "fortnightly"
  | .MONTHLY => "monthly"
  | .QUARTERLY => "quarterly"
  | .BIANNUALLY => "biannually"
  | .ANNUALLY => "annually"
  | .AS_NEEDED => "asNeeded"
  | .IRREGULAR => "irregular"
  | .NOT_PLANNED => "notPlanned"
  | .UNKNOWN => "unknown"
  | .PERIODIC => "periodic"
  | .SEMIMONTHLY => "semimonthly"
  | .BIENNIALLY => "biennially"

/-- All members of `MaintenanceFrequencyCode`, in source order. -/
def MaintenanceFrequencyCode.members : List MaintenanceFrequencyCode :=
  [.CONTINUAL, .DAILY, .WEEKLY, .FORTNIGHTLY, .MONTHLY, .QUARTERLY,
   .BIANNUALLY, .ANNUALLY, .AS_NEEDED, .IRREGULAR, .NOT_PLANNED, .UNKNOWN,
   .PERIODIC, .SEMIMONTHLY, .BIENNIALLY]

/-- Class declarations of `opengis/metadata/citation.py` (entity
interfaces only; the module's code lists are embedded separately), in
source order, with each property's annotated type. -/
def citationTable : List ClassDecl :=
  [⟨"Series", [],
    [("name", .pstr),
     ("issue_identification", .pstr),
     ("page", .pstr)]⟩,
   ⟨"Address", [],
    [("delivery_point", .seq .pstr),
     ("city", .pstr),
     ("administrative_area", .pstr),
     ("postal_code", .pstr),
     ("country", .pstr),
     ("electronic_mail_address", .seq .pstr)]⟩,
   ⟨"Telephone", [],
    [("number", .pstr),
     ("number_type", .enum "TelephoneTypeCode")]⟩,
   ⟨"OnlineResource", [],
    [("linkage", .pany),
     ("protocol", .pstr),
     ("application_profile", .pstr),
     ("name", .pstr),
     ("description", .pstr),
     ("function", .enum "OnLineFunctionCode"),
     ("protocol_request", .pstr)]⟩,
   ⟨"Contact", [],
    [("phone", .seq (.cls "Telephone")),
     ("address", .seq (.cls "Address")),
     ("online_resource", .seq (.cls "OnlineResource")),
     ("hours_of_service", .seq .pstr),
     ("contact_instructions", .pstr),
     ("contact_type", .pstr)]⟩,
   ⟨"Party", [],
    [("name", .pstr),
     ("contact_info", .seq (.cls "Contact")),
     ("party_identifier", .seq (.cls "Identifier"))]⟩,
   ⟨"Responsibility", [],
    [("role", .enum "RoleCode"),
     ("extent", .seq (.cls "Extent")),
     ("party", .seq (.cls "Party"))]⟩,
   ⟨"Individual", ["Party"],
    [("position_name", .pstr)]⟩,
   ⟨"Organisation", ["Party"],
    [("logo", .seq (.cls "BrowseGraphic")),
     ("individual", .seq (.cls "Individual"))]⟩,
   ⟨"Date", [],
    [("date", .pdatetime),
     ("date_type", .enum "DateTypeCode")]⟩,
   ⟨"Citation", [],
    [("title", .pstr),
     ("alternate_title", .seq .pstr),
     ("date", .seq (.cls "Date")),
     ("edition", .pstr),
     ("edition_date", .pdatetime),
     ("identifier", .seq (.cls "Identifier")),
     ("cited_responsible_party", .seq (.cls "Responsibility")),
     ("presentation_form", .seq (.enum "PresentationFormCode")),
     ("series", .cls "Series"),
     ("other_citation_details", .seq .pstr),
     ("isbn", .pstr),
     ("issn", .pstr),
     ("online_resource", .seq (.cls "OnlineResource")),
     ("graphic", .seq (.cls "BrowseGraphic"))]⟩,
   ⟨"Identifier", [],
    [("authority", .cls "Citation"),
     ("code", .pstr),
     ("code_space", .pstr),
     ("version", .pstr),
     ("description", .pstr)]⟩]

/-- Class declarations of `opengis/metadata/constraints.py`. -/
def constraintsTable : List ClassDecl :=
  [⟨"Releasability", [],
    [("addressee", .opt (.seq (.cls "Responsibility"))),
     ("statement", .opt .pstr),
     ("dissemination_constraints", .opt (.seq (.enum "RestrictionCode")))]⟩,
   ⟨"Constraints", [],
    [("use_limitation", .opt (.seq .pstr)),
     ("constraint_application_scope", .opt (.cls "Scope")),
     ("graphic", .opt (.seq (.cls "BrowseGraphic"))),
     ("reference", .opt (.seq (.cls "Citation"))),
     ("releasability", .opt (.cls "Releasability")),
     ("responsible_party", .opt (.seq (.cls "Responsibility")))]⟩,
   ⟨"LegalConstraints", ["Constraints"],
    [("access_constraints", .opt (.seq (.enum "RestrictionCode"))),
     ("use_constraints", .opt (.seq (.enum "RestrictionCode"))),
     ("other_constraints", .opt (.seq .pstr))]⟩,
   ⟨"SecurityConstraints", ["Constraints"],
    [("classification", .enum "ClassificationCode"),
     ("user_note", .opt .pstr),
     ("classification_system", .opt .pstr),
     ("handling_description", .opt .pstr)]⟩]

/-- Class declarations of `opengis/metadata/lineage.py`.  The source
writes optional types as `T | None`; both spellings are embedded as
`PyType.opt`. -/
def lineageTable : List ClassDecl :=
  [⟨"NominalResolution", [],
    [("scanning_resolution", .cls "Distance"),
     ("ground_resolution", .cls "Distance")]⟩,
   ⟨"Source", [],
    [("description", .opt .pstr),
     ("source_spatial_resolution", .opt (.cls "Resolution")),
     ("source_reference_system", .opt (.cls "ReferenceSystem")),
     ("source_citation", .opt (.cls "Citation")),
     ("source_metadata", .opt (.seq (.cls "Citation"))),
     ("scope", .opt (.cls "Scope")),
     ("source_step", .opt (.seq (.cls "ProcessStep"))),
     ("processed_level", .opt (.cls "Identifier")),
     ("resolution", .opt (.cls "NominalResolution"))]⟩,
   ⟨"Algorithm", [],
    [("citation", .cls "Citation"),
     ("description", .pstr)]⟩,
   ⟨"ProcessParameter", [],
    [("name", .cls "MemberName"),
     ("direction", .enum "ParameterDirection"),
     ("description", .opt .pstr),
     ("optionality", .pbool),
     ("repeatability", .pbool),
     ("value_type", .opt (.cls "RecordType")),
     ("value", .opt (.cls "Record")),
     ("resource", .opt (.cls "Source"))]⟩,
   ⟨"Processing", [],
    [("identifier", .cls "Identifier"),
     ("software_reference", .opt (.seq (.cls "Citation"))),
     ("procedure_description", .opt .pstr),
     ("documentation", .opt (.seq (.cls "Citation"))),
     ("run_time_parameters", .opt .pstr),
     ("other_property", .opt (.cls "Record")),
     ("other_property_type", .opt (.cls "RecordType")),
     ("algorithm", .opt (.seq (.cls "Algorithm"))),
     ("parameter", .opt (.cls "ProcessParameter"))]⟩,
   ⟨"ProcessStepReport", [],
    [("name", .pstr),
     ("description", .opt .pstr),
     ("file_type", .opt .pstr)]⟩,
   ⟨"ProcessStep", [],
    [("description", .pstr),
     ("rationale", .opt .pstr),
     ("step_date_time", .opt .pdatetime),
     ("processor", .opt (.seq (.cls "Responsibility"))),
     ("reference", .opt (.seq (.cls "Citation"))),
     ("scope", .opt (.cls "Scope")),
     ("source", .opt (.seq (.cls "Source"))),
     ("output", .opt (.seq (.cls "Source"))),
     ("processing_information", .opt (.cls "Processing")),
     ("report", .opt (.seq (.cls "ProcessStepReport")))]⟩,
   ⟨"Lineage", [],
    [("statement", .opt .pstr),
     ("scope", .opt (.cls "Scope")),
     ("additional_documentation", .opt (.seq (.cls "Citation"))),
     ("process_step", .opt (.seq (.cls "ProcessStep"))),
     ("source", .opt (.seq (.cls "Source")))]⟩]

/-- Class declarations of `opengis/metadata/maintenance.py`. -/
def maintenanceTable : List ClassDecl :=
  [⟨"ScopeDescription", [],
    [("attributes", .seq .pstr),
     ("features", .seq .pstr),
     ("feature_instances", .seq .pstr),
     ("attribute_instances", .seq .pstr),
     ("dataset", .pstr),
     ("other", .pstr)]⟩,
   ⟨"Scope", [],
    [("level", .enum "ScopeCode"),
     ("extent", .seq (.cls "Extent")),
     ("level_description", .seq (.cls "ScopeDescription"))]⟩,
   ⟨"MaintenanceInformation", [],
    [("maintenance_and_update_frequency",
        .opt (.enum "MaintenanceFrequencyCode")),
     ("maintenance_date", .opt (.seq (.cls "Date"))),
     ("user_defined_maintenance_frequency", .opt .ptimedelta),
     ("maintenance_scope", .opt (.seq (.cls "Scope"))),
     ("maintenance_note", .opt (.seq .pstr)),
     ("contact", .opt (.seq (.cls "Responsibility")))]⟩]

/-- Class declarations of `opengis/metadata/extent.py`. -/
def extentTable : List ClassDecl :=
  [⟨"GeographicExtent", [],
    [("extent_type_code", .pany)]⟩,
   ⟨"GeographicBoundingBox", ["GeographicExtent"],
    [("west_bound_longitude", .pfloat),
     ("east_bound_longitude", .pfloat),
     ("south_bound_latitude", .pfloat),
     ("north_bound_latitude", .pfloat)]⟩,
   ⟨"GeographicDescription", ["GeographicExtent"],
    [("geographic_identifier", .cls "Identifier")]⟩,
   ⟨"BoundingPolygon", ["GeographicExtent"],
    [("polygon", .pany)]⟩,
   ⟨"VerticalExtent", [],
    [("minimum_value", .pfloat),
     ("maximum_value", .pfloat),
     ("vertical_CRS", .pany)]⟩,
   ⟨"TemporalExtent", [],
    [("extent", .pany)]⟩,
   ⟨"SpatialTemporalExtent", ["TemporalExtent"],
    [("vertical_extent", .cls "VerticalExtent"),
     ("spatial_extent", .seq (.cls "GeographicExtent"))]⟩,
   ⟨"Extent", [],
    [("description", .pstr),
     ("geographic_element", .seq (.cls "GeographicExtent")),
     ("temporal_element", .seq (.cls "TemporalExtent")),
     ("vertical_element", .seq (.cls "VerticalExtent"))]⟩]

/-- Class declarations of `opengis/referencing/crs.py`, in source
order. -/
def crsTable : List ClassDecl :=
  [⟨"ReferenceSystem", ["IdentifiedObject"],
    [("domain_of_validity", .cls "Extent"),
     ("scope", .pstr)]⟩,
   ⟨"CoordinateReferenceSystem", ["ReferenceSystem"], []⟩,
   ⟨"SingleCRS", ["CoordinateReferenceSystem"],
    [("coordinate_system", .cls "CoordinateSystem"),
     ("datum", .cls "Datum")]⟩,
   ⟨"CompoundCRS", ["CoordinateReferenceSystem"],
    [("components", .seq (.cls "SingleCRS"))]⟩,
   ⟨"VerticalCRS", ["SingleCRS"],
    [("coordinate_system", .cls "VerticalCS"),
     ("datum", .cls "VerticalDatum")]⟩,
   ⟨"TemporalCRS", ["SingleCRS"],
    [("coordinate_system", .cls "TimeCS"),
     ("datum", .cls "TemporalDatum")]⟩,
   ⟨"EngineeringCRS", ["SingleCRS"],
    [("datum", .cls "EngineeringDatum")]⟩,
   ⟨"DerivedCRS", ["SingleCRS"],
    [("base_crs", .cls "CoordinateReferenceSystem"),
     ("conversion_from_base", .pany)]⟩,
   ⟨"GeodeticCRS", ["SingleCRS"],
    [("datum", .cls "GeodeticDatum")]⟩,
   ⟨"GeographicCRS", ["GeodeticCRS"],
    [("coordinate_system", .cls "EllipsoidalCS")]⟩,
   ⟨"ProjectedCRS", ["DerivedCRS"],
    [("conversion_from_base", .pany),
     ("base_crs", .cls "GeographicCRS"),
     ("coordinate_system", .cls "CartesianCS"),
     ("datum", .cls "GeodeticDatum")]⟩]

/-- Modelled from the spec: the repository's `opengis/referencing/cs.py`
and `opengis/referencing/datum.py` modules are not among the provided
source files, only imported by `crs.py`.  Per the spec's reference-system
hierarchy, the specialized coordinate-system classes (ellipsoidal,
cartesian, vertical, time) are subtypes of `CoordinateSystem`, the
specialized datum classes are subtypes of `Datum`, and `IdentifiedObject`
is the common root; no properties of these classes are needed by the
claims, so none are modelled. -/
def csDatumTable : List ClassDecl :=
  [⟨"IdentifiedObject", [], []⟩,
   ⟨"CoordinateSystem", [], []⟩,
   ⟨"EllipsoidalCS", ["CoordinateSystem"], []⟩,
   ⟨"CartesianCS", ["CoordinateSystem"], []⟩,
   ⟨"VerticalCS", ["CoordinateSystem"], []⟩,
   ⟨"TimeCS", ["CoordinateSystem"], []⟩,
   ⟨"Datum", ["IdentifiedObject"], []⟩,
   ⟨"GeodeticDatum", ["Datum"], []⟩,
   ⟨"VerticalDatum", ["Datum"], []⟩,
   ⟨"TemporalDatum", ["Datum"], []⟩,
   ⟨"EngineeringDatum", ["Datum"], []⟩]

/-- Class declarations of `opengis/metadata/representation.py` (entity
interfaces only; the module's code lists are not instantiated by any
claim), in source order. -/
def representationTable : List ClassDecl :=
  [⟨"Dimension", [],
    [("dimension_name", .enum "DimensionNameTypeCode"),
     ("dimension_size", .pint),
     ("resolution", .pfloat),
     ("dimension_title", .pstr),
     ("dimension_description", .pstr)]⟩,
   ⟨"GeolocationInformation", [],
    [("quality_info", .opt (.seq (.cls "DataQuality")))]⟩,
   ⟨"GCP", [],
    [("geographic_coordinates", .cls "DirectPosition"),
     ("accuracy_report", .opt (.seq (.cls "Element")))]⟩,
   ⟨"GCPCollection", ["GeolocationInformation"],
    [("collection_identification", .pint),
     ("collection_name", .pstr),
     ("coordinate_reference_system", .cls "ReferenceSystem"),
     ("gcp", .seq (.cls "GCP"))]⟩,
   ⟨"GeometricObjects", [],
    [("geometric_object_type", .enum "GeometricObjectTypeCode"),
     ("geometric_object_count", .pint)]⟩,
   ⟨"SpatialRepresentation", [],
    [("scope", .cls "Scope")]⟩,
   ⟨"GridSpatialRepresentation", ["SpatialRepresentation"],
    [("number_of_dimensions", .pint),
     ("axis_dimension_properties", .seq (.cls "Dimension")),
     ("cell_geometry", .enum "CellGeometryCode"),
     ("transformation_parameter_availability", .pany)]⟩,
   ⟨"VectorSpatialRepresentation", ["SpatialRepresentation"],
    [("topology_level", .opt (.enum "TopologyLevelCode")),
     ("geometric_objects", .opt (.seq (.cls "GeometricObjects")))]⟩,
   ⟨"Georectified", ["GridSpatialRepresentation"],
    [("check_point_availability", .pany),
     ("check_point_description", .opt .pstr),
     ("corner_points", .opt (.seq (.cls "GM_Point"))),
     ("centre_point", .opt (.cls "GM_Point")),
     ("point_in_pixel", .enum "PixelOrientationCode"),
     ("transformation_dimension_description", .opt .pstr),
     ("transformation_dimension_mapping", .opt (.seq .pstr)),
     ("check_point", .opt (.seq (.cls "GCP")))]⟩,
   ⟨"Georeferenceable", ["GridSpatialRepresentation"],
    [("control_point_availability", .pbool),
     ("orientation_parameter_availability", .pbool),
     ("orientation_parameter_description", .opt .pstr),
     ("georeferenced_parameters", .cls "Record"),
     ("parameter_citation", .opt (.seq (.cls "Citation"))),
     ("geolocation_information", .seq (.cls "GeolocationInformation"))]⟩]

/-- Class declarations of `opengis/metadata/distribution.py` (entity
interfaces only), in source order. -/
def distributionTable : List ClassDecl :=
  [⟨"Medium", [],
    [("name", .opt (.cls "Citation")),
     ("density", .opt .pfloat),
     ("density_units", .opt .pstr),
     ("volumes", .opt .pint),
     ("medium_format", .opt (.seq (.enum "MediumFormatCode"))),
     ("medium_note", .opt .pstr),
     ("identifier", .opt (.cls "Identifier"))]⟩,
   ⟨"Format", [],
    [("format_specification_citation", .cls "Citation"),
     ("amendment_number", .opt .pstr),
     ("file_decompression_technique", .opt .pstr),
     ("medium", .opt (.seq (.cls "Medium"))),
     ("format_distributor", .opt (.seq (.cls "Distributor")))]⟩,
   ⟨"DataFile", [],
    [("file_name", .pstr),
     ("file_description", .pstr),
     ("file_type", .pstr),
     ("feature_types", .seq (.cls "GenericName"))]⟩,
   ⟨"StandardOrderProcess", [],
    [("fees", .opt .pstr),
     ("planned_available_date_time", .opt .pdatetime),
     ("ordering_instructions", .opt .pstr),
     ("turnaround", .opt .pstr),
     ("order_options_type", .opt (.cls "RecordType")),
     ("order_options", .opt (.cls "Record"))]⟩,
   ⟨"Distributor", [],
    [("distributor_contact", .cls "Responsibility"),
     ("distribution_order_process",
        .opt (.seq (.cls "StandardOrderProcess"))),
     ("distributor_format", .opt (.seq (.cls "Format"))),
     ("distributor_transfer_options",
        .opt (.seq (.cls "DigitalTransferOptions")))]⟩,
   ⟨"Distribution", [],
    [("description", .opt .pstr),
     ("distribution_format", .opt (.seq (.cls "Format"))),
     ("distributor", .opt (.seq (.cls "Distributor"))),
     ("transfer_options", .opt (.seq (.cls "DigitalTransferOptions")))]⟩,
   ⟨"DigitalTransferOptions", [],
    [("units_of_distribution", .opt .pstr),
     ("transfer_size", .opt .pfloat),
     ("on_line", .opt (.seq (.cls "OnlineResource"))),
     ("off_line", .opt (.seq (.cls "Medium"))),
     ("transfer_frequency", .opt .ptimedelta),
     ("distribution_format", .opt (.seq (.cls "Format")))]⟩]

/-- The combined class table of the embedded source modules. -/
def allTable : List ClassDecl :=
  citationTable ++ constraintsTable ++ lineageTable ++ maintenanceTable ++
    extentTable ++ crsTable ++ representationTable ++ distributionTable

/-- The class table used for reference-system subtyping questions: the
source `crs.py` classes together with the spec-modelled coordinate-system
and datum hierarchy. -/
def refTable : List ClassDecl := crsTable ++ csDatumTable

/-- External string tokens of the remaining code lists of the embedded
modules, keyed by enumeration name, each list in source order.  The
tokens of `RoleCode` and `MaintenanceFrequencyCode` are taken from their
dedicated embeddings above. -/
def enumTable : List (String × List String) :=
  [("DateTypeCode",
    ["creation", "publication", "revision", "expiry", "lastUpdate",
     "lastRevision", "nextUpdate", "unavailable", "inForce", "adopted",
     "deprecated", "superseded", "validityBegins", "validityExpires",
     "released", "distribution"]),
   ("OnLineFunctionCode",
    ["download", "information", "offlineAccess", "order", "search",
     "completeMetadata", "browseGraphic", "upload", "emailService",
     "browsing", "fileAccess"]),
   ("PresentationFormCode",
    ["documentDigital", "documentHardcopy", "imageDigital",
     "imageHardcopy", "mapDigital", "mapHardcopy", "modelDigital",
     "modelHardcopy", "profileDigital", "profileHardcopy", "tableDigital",
     "tableHardcopy", "videoDigital", "videoHardcopy", "audioDigital",
     "audioHardcopy", "multimediaDigital", "multimediaHardcopy",
     "physicalObject", "diagramDigital", "diagramHardcopy"]),
   ("RoleCode", RoleCode.members.map RoleCode.value),
   ("TelephoneTypeCode", ["voice", "facsimile", "sms"]),
   ("ClassificationCode",
    ["unclassified", "restricted", "confidential", "secret", "topSecret",
     "sensitiveButUnclassified", "forOfficialUseOnly", "protected",
     "limitedDistribution"]),
   ("RestrictionCode",
    ["copyright", "patent", "patentPending", "trademark", "licence",
     "intellectualPropertyRights", "restricted", "otherRestrictions",
     "unrestricted", "licenceUnrestricted", "licenceEndUser",
     "licenceDistributor", "private", "statutory", "confidential",
     "sensitiveButUnclassified", "in-confidence"]),
   ("MaintenanceFrequencyCode",
    MaintenanceFrequencyCode.members.map MaintenanceFrequencyCode.value),
   ("ScopeCode",
    ["collectionHardware", "collectionSession", "series", "dataset",
     "nonGeographicDataset", "dimensionGroup", "featureType", "feature",
     "attributeType", "attribute", "propertyType", "fieldSession",
     "software", "service", "model", "tile", "metadata", "initiative",
     "sample", "document", "repository", "aggregate", "product",
     "collection", "coverage", "application"])]

/-- Look a class up by name in a class table. -/
def findClass (tbl : List ClassDecl) (n : String) : Option ClassDecl :=
  tbl.find? (fun c => c.cname == n)

/-- Direct base classes of a named class (empty when the class is not in
the table). -/
def parentsOf (tbl : List ClassDecl) (n : String) : List String :=
  match findClass tbl n with
  | some c => c.parents
  | none => []

/-- Properties declared in a named class body itself. -/
def ownProps (tbl : List ClassDecl) (n : String) : List (String × PyType) :=
  match findClass tbl n with
  | some c => c.props
  | none => []

/-- Transitive base classes of a named class, fuelled by recursion
depth. -/
def ancestors : Nat → List ClassDecl → String → List String
  | 0, _, _ => []
  | fuel + 1, tbl, n =>
      (parentsOf tbl n).flatMap (fun p => p :: ancestors fuel tbl p)

/-- Reflexive-transitive subclass test. -/
def isSubclass (fuel : Nat) (tbl : List ClassDecl) (a b : String) : Bool :=
  a == b || (ancestors fuel tbl a).elem b

/-- Full property set of a named class: its own declarations followed by
the inherited ones it does not override (Python attribute lookup walks
the class first, then its bases). -/
def classProps : Nat → List ClassDecl → String → List (String × PyType)
  | 0, _, _ => []
  | fuel + 1, tbl, n =>
      let own := ownProps tbl n
      let inherited := (parentsOf tbl n).flatMap (classProps fuel tbl)
      own ++ inherited.filter (fun q => own.all (fun r => r.1 != q.1))

/-- Names of all properties a class exposes (own and inherited). -/
def propNames (tbl : List ClassDecl) (n : String) : List String :=
  (classProps tbl.length tbl n).map Prod.fst

/-- Covariant subtyping on declared property types: class types follow
the subclass relation, sequence and optional types are covariant, and
all other types (including unannotated ones) relate only to
themselves. -/
def tySub (fuel : Nat) (tbl : List ClassDecl) : PyType → PyType → Bool
  | .cls a, .cls b => isSubclass fuel tbl a b
  | .seq a, .seq b => tySub fuel tbl a b
  | .opt a, .opt b => tySub fuel tbl a b
  | a, b => a == b

/-- A concrete runtime value of the data model.  Scalar temporal values
are abstracted as integers; an absent (Python `None`) value is
`vNone`. -/
inductive Value where
  | vNone
  | vStr (s : String)
  | vInt (n : Int)
  | vFloat (n : Int)
  | vBool (b : Bool)
  | vDatetime (n : Int)
  | vTimedelta (n : Int)
  | vEnum (e m : String)
  | vList (vs : List Value)
  | vObj (c : String) (fields : List (String × Value))

/-- Field lookup on an instance; a missing field reads as the absent
value, mirroring a property that was never supplied. -/
def getField (fs : List (String × Value)) (n : String) : Value :=
  match fs.find? (fun p => p.1 == n) with
  | some p => p.2
  | none => .vNone

/-- Membership of a token in a named code list. -/
def enumHas (e m : String) : Bool :=
  match enumTable.find? (fun p => p.1 == e) with
  | some p => p.2.elem m
  | none => false

/-- Conformance of a concrete value to a declared type over a class
table: an object conforms to a class type when its class is a subclass
and every property the class exposes holds a conforming value; a list
conforms to a sequence type elementwise; the absent value conforms
exactly to optional types (and to unannotated ones); enumeration values
must carry a token of the named code list.  Fuelled by value depth. -/
def conformsB (tbl : List ClassDecl) : Nat → Value → PyType → Bool
  | 0, _, _ => false
  | fuel + 1, v, t =>
      match t, v with
      | .pstr, .vStr _ => true
      | .pint, .vInt _ => true
      | .pfloat, .vFloat _ => true
      | .pbool, .vBool _ => true
      | .pdatetime, .vDatetime _ => true
      | .ptimedelta, .vTimedelta _ => true
      | .pany, _ => true
      | .enum e, .vEnum e2 m => e == e2 && enumHas e m
      | .cls b, .vObj c fs =>
          isSubclass tbl.length tbl c b &&
            (classProps tbl.length tbl c).all
              (fun p => conformsB tbl fuel (getField fs p.1) p.2)
      | .seq t1, .vList vs => vs.all (fun x => conformsB tbl fuel x t1)
      | .opt _, .vNone => true
      | .opt t1, v1 => conformsB tbl fuel v1 t1
      | _, _ => false

/-- Top-level eager imports between the four metadata topic modules
named by the spec's reference-cycle note, transcribed from the import
statements of `citation.py`, `identification.py`, `extent.py` and
`maintenance.py` and restricted to those four modules. -/
def topicImports : List (String × List String) :=
  [("citation", ["extent", "identification"]),
   ("identification", ["citation", "extent", "maintenance"]),
   ("extent", ["citation"]),
   ("maintenance", ["citation", "extent"])]

/-- Modules imported by a module of the restricted topic graph. -/
def importsOf (g : List (String × List String)) (m : String) : List String :=
  match g.find? (fun p => p.1 == m) with
  | some p => p.2
  | none => []

/-- Reachability along import edges, fuelled by path length. -/
def reaches : Nat → List (String × List String) → String → String → Bool
  | 0, _, _, _ => false
  | fuel + 1, g, a, b =>
      (importsOf g a).any (fun c => c == b || reaches fuel g c b)

/-- Whether a declared type is explicitly optional. -/
def isOpt : PyType → Bool
  | .opt _ => true
  | _ => false

/-- Fields of a fully populated `Citation` instance standing for the
EPSG registry citation, usable as the `authority` of an identifier; its
own identifier sequence is empty. -/
def epsgCitationFields : List (String × Value) :=
  [("title", .vStr "EPSG Geodetic Parameter Dataset"),
   ("alternate_title", .vList []),
   ("date", .vList []),
   ("edition", .vStr ""),
   ("edition_date", .vDatetime 0),
   ("identifier", .vList []),
   ("cited_responsible_party", .vList []),
   ("presentation_form", .vList []),
   ("series", .vObj "Series"
      [("name", .vStr ""), ("issue_identification", .vStr ""),
       ("page", .vStr "")]),
   ("other_citation_details", .vList []),
   ("isbn", .vStr ""),
   ("issn", .vStr ""),
   ("online_resource", .vList []),
   ("graphic", .vList [])]

/-- An `Identifier` instance with code 4326 in code space EPSG whose
authority is the EPSG registry citation. -/
def dcwIdentifier : Value :=
  .vObj "Identifier"
    [("authority", .vObj "Citation" epsgCitationFields),
     ("code", .vStr "4326"),
     ("code_space", .vStr "EPSG"),
     ("version", .vStr ""),
     ("description", .vStr "WGS-84")]

/-- Fields of a `Citation` instance for the Digital Chart of the World
whose identifier sequence holds exactly `dcwIdentifier`. -/
def dcwCitationFields : List (String × Value) :=
  [("title", .vStr "Digital Chart of the World"),
   ("alternate_title", .vList [.vStr "DCW"]),
   ("date", .vList []),
   ("edition", .vStr ""),
   ("edition_date", .vDatetime 0),
   ("identifier", .vList [dcwIdentifier]),
   ("cited_responsible_party", .vList []),
   ("presentation_form", .vList []),
   ("series", .vObj "Series"
      [("name", .vStr ""), ("issue_identification", .vStr ""),
       ("page", .vStr "")]),
   ("other_citation_details", .vList []),
   ("isbn", .vStr ""),
   ("issn", .vStr ""),
   ("online_resource", .vList []),
   ("graphic", .vList [])]

/-- Fields of a `SecurityConstraints` instance carrying only the
mandatory classification. -/
def secFields : List (String × Value) :=
  [("classification", .vEnum "ClassificationCode" "unclassified")]

/-- A parent name produced by `parentsOf` comes from some declaration of
the table. -/
theorem mem_parentsOf {tbl : List ClassDecl} {c p : String}
    (h : p ∈ parentsOf tbl c) : ∃ cd ∈ tbl, p ∈ cd.parents := by
  unfold parentsOf at h
  cases hf : findClass tbl c with
  | none => rw [hf] at h; simp at h
  | some cd =>
    rw [hf] at h
    refine ⟨cd, ?_, h⟩
    have hf2 : tbl.find? (fun c2 => c2.cname == c) = some cd := by
      simpa [findClass] using hf
    exact List.mem_of_find?_eq_some hf2

/-- A name that appears in no declaration's base-class list is never an
ancestor. -/
theorem ancestors_not_mem (tbl : List ClassDecl) (b : String)
    (hb : ∀ cd ∈ tbl, b ∉ cd.parents) :
    ∀ k c, b ∉ ancestors k tbl c := by
  intro k
  induction k with
  | zero => intro c h; simp [ancestors] at h
  | succ k ih =>
    intro c h
    simp only [ancestors, List.mem_flatMap, List.mem_cons] at h
    obtain ⟨p, hp, hmem⟩ := h
    obtain ⟨cd, hcd, hpcd⟩ := mem_parentsOf hp
    cases hmem with
    | inl hbp => exact hb cd hcd (hbp ▸ hpcd)
    | inr hanc => exact ih p hanc

/-- A class that appears in no declaration's base-class list has itself
as its only subclass. -/
theorem isSubclass_fixed (tbl : List ClassDecl) (b : String)
    (hb : ∀ cd ∈ tbl, b ∉ cd.parents) (f : Nat) (c : String)
    (h : isSubclass f tbl c b = true) : c = b := by
  unfold isSubclass at h
  rw [Bool.or_eq_true] at h
  cases h with
  | inl h => exact eq_of_beq h
  | inr h =>
    exact absurd (List.mem_of_elem_eq_true h) (ancestors_not_mem tbl b hb f c)

/-- The absent value never conforms to an enumeration type. -/
theorem conformsB_vNone_enum (tbl : List ClassDecl) (k : Nat) (e : String) :
    conformsB tbl k .vNone (.enum e) = false := by
  cases k <;> rfl

/-- Inversion of conformance at an object value and class type. -/
theorem conformsB_obj_inv {tbl : List ClassDecl} {k : Nat} {c b : String}
    {fs : List (String × Value)}
    (h : conformsB tbl (k + 1) (.vObj c fs) (.cls b) = true) :
    isSubclass tbl.length tbl c b = true ∧
      ∀ p ∈ classProps tbl.length tbl c,
        conformsB tbl k (getField fs p.1) p.2 = true := by
  simp only [conformsB, Bool.and_eq_true, List.all_eq_true] at h
  exact h

/-- Inversion of conformance at a list value and sequence type. -/
theorem conformsB_seq_inv {tbl : List ClassDecl} {k : Nat} {t : PyType}
    {vs : List Value}
    (h : conformsB tbl (k + 1) (.vList vs) (.seq t) = true) :
    ∀ x ∈ vs, conformsB tbl k x t = true := by
  simp only [conformsB, List.all_eq_true] at h
  exact h

/-- Claim C1: every member of the embedded code lists carries exactly the
documented external string token; in particular `RoleCode.AUTHOR` maps to
"author" and `MaintenanceFrequencyCode.BIANNUALLY` to "biannually", and
`RoleCode` contains "resourceProvider" and "custodian".  The complete
token lists are stated, and each is duplicate-free, so the tokens form a
closed set of distinct external values. -/
theorem C1_codelist_external_tokens :
    RoleCode.value .AUTHOR = "author" ∧
    MaintenanceFrequencyCode.value .BIANNUALLY = "biannually" ∧
    RoleCode.value .RESOURCE_PROVIDER = "resourceProvider" ∧
    RoleCode.value .CUSTODIAN = "custodian" ∧
    RoleCode.members.map RoleCode.value =
      ["resourceProvider", "custodian", "owner", "user", "distributor",
       "originator", "pointOfContact", "principalInvestigator", "processor",
       "publisher", "author", "sponsor", "coAuthor", "collaborator",
       "editor", "mediator", "rightsHolder", "contributor", "funder",
       "stakeholder"] ∧
    MaintenanceFrequencyCode.members.map MaintenanceFrequencyCode.value =
      ["continual", "daily", "weekly", "fortnightly", "monthly",
       "quarterly", "biannually", "annually", "asNeeded", "irregular",
       "notPlanned", "unknown", "periodic", "semimonthly", "biennially"] ∧
    (RoleCode.members.map RoleCode.value).Nodup ∧
    (MaintenanceFrequencyCode.members.map
      MaintenanceFrequencyCode.value).Nodup := by
  decide

/-- Claim C2: the conditional-mandatory groups on `Source` (description
or scope) and `Lineage` (statement, process step, source) involve only
properties declared with optional types, and the declared interface
accepts an instance in which every member of each group — indeed every
property — is simultaneously absent: the all-absent `Source` and
`Lineage` instances conform. -/
theorem C2_conditional_mandatory_unenforced :
    ((ownProps allTable "Source").lookup "description" =
       some (.opt .pstr)) ∧
    ((ownProps allTable "Source").lookup "scope" =
       some (.opt (.cls "Scope"))) ∧
    ((ownProps allTable "Lineage").lookup "statement" =
       some (.opt .pstr)) ∧
    ((ownProps allTable "Lineage").lookup "process_step" =
       some (.opt (.seq (.cls "ProcessStep")))) ∧
    ((ownProps allTable "Lineage").lookup "source" =
       some (.opt (.seq (.cls "Source")))) ∧
    ((classProps allTable.length allTable "Source").all
       (fun p => isOpt p.2) = true) ∧
    ((classProps allTable.length allTable "Lineage").all
       (fun p => isOpt p.2) = true) ∧
    (conformsB allTable 5 (.vObj "Source" []) (.cls "Source") = true) ∧
    (conformsB allTable 5 (.vObj "Lineage" []) (.cls "Lineage") = true) := by
  decide

/-- Claim C3: for every parent-subtype pair of the embedded hierarchy,
the subtype's exposed property-name set contains every property name the
parent exposes; concretely, `Individual` and `Organisation` expose every
`Party` property plus their own, and `LegalConstraints` and
`SecurityConstraints` expose every `Constraints` property plus their
own. -/
theorem C3_subtype_property_superset :
    (∀ cd ∈ allTable, ∀ pn ∈ cd.parents, ∀ nm ∈ propNames allTable pn,
       nm ∈ propNames allTable cd.cname) ∧
    propNames allTable "Party" =
      ["name", "contact_info", "party_identifier"] ∧
    propNames allTable "Individual" =
      ["position_name", "name", "contact_info", "party_identifier"] ∧
    propNames allTable "Organisation" =
      ["logo", "individual", "name", "contact_info", "party_identifier"] ∧
    propNames allTable "LegalConstraints" =
      ["access_constraints", "use_constraints", "other_constraints",
       "use_limitation", "constraint_application_scope", "graphic",
       "reference", "releasability", "responsible_party"] ∧
    propNames allTable "SecurityConstraints" =
      ["classification", "user_note", "classification_system",
       "handling_description", "use_limitation",
       "constraint_application_scope", "graphic", "reference",
       "releasability", "responsible_party"] := by
  decide

/-- Claim C3 witness: instantiating the superset property at the
`Individual` declaration, its parent `Party` and the inherited property
name "name". -/
theorem C3_subtype_property_superset_witness :
    "name" ∈ propNames allTable "Individual" :=
  C3_subtype_property_superset.1
    ⟨"Individual", ["Party"], [("position_name", .pstr)]⟩ (by decide)
    "Party" (by decide) "name" (by decide)

/-- Claim C4: in the reference-system hierarchy, whenever a class of
`crs.py` redeclares a property that some ancestor also declares, the
redeclared type is a (reflexive-transitive, covariant) subtype of the
ancestor's type; in particular `GeographicCRS.coordinate_system` narrows
`SingleCRS`'s `CoordinateSystem` to `EllipsoidalCS`. -/
theorem C4_covariant_narrowing :
    (∀ c ∈ crsTable, ∀ pr ∈ c.props, ∀ a ∈ ancestors 20 refTable c.cname,
       ∀ q ∈ ownProps refTable a, q.1 = pr.1 →
         tySub 20 refTable pr.2 q.2 = true) ∧
    ((ownProps refTable "GeographicCRS").lookup "coordinate_system" =
       some (.cls "EllipsoidalCS")) ∧
    ((ownProps refTable "SingleCRS").lookup "coordinate_system" =
       some (.cls "CoordinateSystem")) ∧
    (isSubclass 20 refTable "EllipsoidalCS" "CoordinateSystem" = true) := by
  decide

/-- Claim C4 witness: instantiating covariant narrowing at
`GeographicCRS.coordinate_system` against the declaration inherited from
`SingleCRS`. -/
theorem C4_covariant_narrowing_witness :
    tySub 20 refTable (.cls "EllipsoidalCS") (.cls "CoordinateSystem") =
      true :=
  C4_covariant_narrowing.1
    ⟨"GeographicCRS", ["GeodeticCRS"],
     [("coordinate_system", .cls "EllipsoidalCS")]⟩ (by decide)
    ("coordinate_system", .cls "EllipsoidalCS") (by decide)
    "SingleCRS" (by decide)
    ("coordinate_system", .cls "CoordinateSystem") (by decide)
    rfl

/-- Claim C5: the reference-system subtype relation is exactly as
described: `ReferenceSystem` above `CoordinateReferenceSystem` above
`SingleCRS`; the direct subtypes of `SingleCRS` are exactly
`VerticalCRS`, `TemporalCRS`, `EngineeringCRS`, `DerivedCRS` and
`GeodeticCRS`; `GeographicCRS` refines `GeodeticCRS` and `ProjectedCRS`
refines `DerivedCRS`; `CompoundCRS` is a direct
`CoordinateReferenceSystem` and not a `SingleCRS`, and its `components`
property is an ordered sequence of `SingleCRS`. -/
theorem C5_crs_subtype_relation :
    parentsOf crsTable "CoordinateReferenceSystem" = ["ReferenceSystem"] ∧
    parentsOf crsTable "SingleCRS" = ["CoordinateReferenceSystem"] ∧
    ((crsTable.filter (fun c => c.parents == ["SingleCRS"])).map
        (fun c => c.cname) =
      ["VerticalCRS", "TemporalCRS", "EngineeringCRS", "DerivedCRS",
       "GeodeticCRS"]) ∧
    parentsOf crsTable "GeographicCRS" = ["GeodeticCRS"] ∧
    parentsOf crsTable "ProjectedCRS" = ["DerivedCRS"] ∧
    parentsOf crsTable "CompoundCRS" = ["CoordinateReferenceSystem"] ∧
    isSubclass 20 refTable "CompoundCRS" "SingleCRS" = false ∧
    isSubclass 20 refTable "CompoundCRS" "CoordinateReferenceSystem" =
      true ∧
    ((ownProps crsTable "CompoundCRS").lookup "components" =
       some (.seq (.cls "SingleCRS"))) := by
  decide

/-- Claim C6: `Citation.identifier` is declared as a sequence of
`Identifier` and `Identifier.authority` as a `Citation`; consequently,
for every conforming `Citation` instance, each element of its identifier
sequence is an `Identifier` object whose authority field conforms to
`Citation` — the reference round-trips at the type level. -/
theorem C6_identifier_citation_roundtrip :
    ((ownProps allTable "Citation").lookup "identifier" =
       some (.seq (.cls "Identifier"))) ∧
    ((ownProps allTable "Identifier").lookup "authority" =
       some (.cls "Citation")) ∧
    ∀ k fs xs x,
      conformsB allTable k (.vObj "Citation" fs) (.cls "Citation") = true →
      getField fs "identifier" = Value.vList xs → x ∈ xs →
      ∃ fs2 g, x = Value.vObj "Identifier" fs2 ∧
        conformsB allTable g (getField fs2 "authority") (.cls "Citation") =
          true := by
  refine ⟨by decide, by decide, ?_⟩
  intro k fs xs x h hid hx
  cases k with
  | zero => simp [conformsB] at h
  | succ k =>
    obtain ⟨-, h2⟩ := conformsB_obj_inv h
    have h3 := h2 ("identifier", .seq (.cls "Identifier")) (by decide)
    rw [hid] at h3
    cases k with
    | zero => simp [conformsB] at h3
    | succ k =>
      have h4 := conformsB_seq_inv h3 x hx
      cases k with
      | zero => simp [conformsB] at h4
      | succ k =>
        cases x with
        | vObj c2 fs2 =>
          obtain ⟨hsub, h5⟩ := conformsB_obj_inv h4
          have hc2 : c2 = "Identifier" :=
            isSubclass_fixed allTable "Identifier" (by decide) _ c2 hsub
          subst hc2
          have h6 := h5 ("authority", .cls "Citation") (by decide)
          exact ⟨fs2, k, rfl, h6⟩
        | vNone => simp [conformsB] at h4
        | vStr s => simp [conformsB] at h4
        | vInt n => simp [conformsB] at h4
        | vFloat n => simp [conformsB] at h4
        | vBool b => simp [conformsB] at h4
        | vDatetime n => simp [conformsB] at h4
        | vTimedelta n => simp [conformsB] at h4
        | vEnum e m => simp [conformsB] at h4
        | vList vs2 => simp [conformsB] at h4

/-- Claim C6 witness: the Digital Chart of the World citation instance,
whose identifier sequence holds the EPSG 4326 identifier, yields an
`Identifier` object whose authority conforms to `Citation`. -/
theorem C6_identifier_citation_roundtrip_witness :
    ∃ fs2 g, dcwIdentifier = Value.vObj "Identifier" fs2 ∧
      conformsB allTable g (getField fs2 "authority") (.cls "Citation") =
        true :=
  C6_identifier_citation_roundtrip.2.2 8 dcwCitationFields
    [dcwIdentifier] dcwIdentifier (by decide) rfl (by simp)

/-- Claim C7 counterexample: not every declared property carries a
declared return type — `GeographicExtent.extent_type_code` and
`OnlineResource.linkage` are declared with no return type at all, so
their presence or optionality is left undeclared. -/
theorem C7_undeclared_type_counterexample :
    ((ownProps allTable "GeographicExtent").lookup "extent_type_code" =
       some PyType.pany) ∧
    ((ownProps allTable "OnlineResource").lookup "linkage" =
       some PyType.pany) ∧
    ¬ ∀ cd ∈ allTable, ∀ p ∈ cd.props, p.2 ≠ PyType.pany := by
  decide

/-- Claim C7 amended: every declared property is always-present,
explicitly optional, or carries no declared return type; in the embedded
modules the properties of the third kind are exactly the nine listed
here. -/
theorem C7_optionality_amended :
    allTable.flatMap
        (fun cd => cd.props.filterMap
          (fun p =>
            if p.2 == PyType.pany then some (cd.cname, p.1) else none)) =
      [("OnlineResource", "linkage"),
       ("GeographicExtent", "extent_type_code"),
       ("BoundingPolygon", "polygon"),
       ("VerticalExtent", "vertical_CRS"),
       ("TemporalExtent", "extent"),
       ("DerivedCRS", "conversion_from_base"),
       ("ProjectedCRS", "conversion_from_base"),
       ("GridSpatialRepresentation",
        "transformation_parameter_availability"),
       ("Georectified", "check_point_availability")] := by
  decide

/-- Claim C8 counterexample: `Format.format_distributor` and
`Georeferenceable.geolocation_information` do carry declared types in
the source — an optional sequence and a mandatory sequence respectively —
so neither lacks a multiplicity or optionality declaration. -/
theorem C8_explicit_types_counterexample :
    ((ownProps allTable "Format").lookup "format_distributor" =
       some (.opt (.seq (.cls "Distributor")))) ∧
    ((ownProps allTable "Georeferenceable").lookup
        "geolocation_information" =
       some (.seq (.cls "GeolocationInformation"))) ∧
    ¬ ((ownProps allTable "Format").lookup "format_distributor" =
         some PyType.pany ∨
       (ownProps allTable "Georeferenceable").lookup
           "geolocation_information" =
         some PyType.pany) := by
  decide

/-- Claim C8 amended: both properties have explicit declared multiplicity
and optionality — `format_distributor` is an explicitly optional
sequence of `Distributor`, and `geolocation_information` is a mandatory
(non-optional) sequence of `GeolocationInformation`. -/
theorem C8_declared_types_amended :
    ((ownProps allTable "Format").lookup "format_distributor" =
       some (.opt (.seq (.cls "Distributor")))) ∧
    (((ownProps allTable "Format").lookup "format_distributor").map isOpt =
       some true) ∧
    ((ownProps allTable "Georeferenceable").lookup
        "geolocation_information" =
       some (.seq (.cls "GeolocationInformation"))) ∧
    (((ownProps allTable "Georeferenceable").lookup
        "geolocation_information").map isOpt = some false) := by
  decide

/-- Claim C9: restricted to the citation, identification, extent and
maintenance topic modules, the eager import graph has the stated edges —
citation imports from identification and extent, while identification,
extent and maintenance each import from citation — and is cyclic: every
one of the four modules lies on an import cycle. -/
theorem C9_topic_import_cycle :
    ("identification" ∈ importsOf topicImports "citation") ∧
    ("extent" ∈ importsOf topicImports "citation") ∧
    ("citation" ∈ importsOf topicImports "identification") ∧
    ("citation" ∈ importsOf topicImports "extent") ∧
    ("citation" ∈ importsOf topicImports "maintenance") ∧
    (reaches 5 topicImports "citation" "citation" = true) ∧
    (reaches 5 topicImports "identification" "identification" = true) ∧
    (reaches 5 topicImports "extent" "extent" = true) ∧
    (reaches 5 topicImports "maintenance" "maintenance" = true) := by
  decide

/-- Claim C10: every property the base `Constraints` type and
`LegalConstraints` expose is explicitly optional (their all-absent
instances conform), while `classification`, of type
`ClassificationCode`, is the single non-optional property in the
`SecurityConstraints` interface, and every conforming
`SecurityConstraints` instance necessarily carries it. -/
theorem C10_constraints_optionality :
    ((classProps allTable.length allTable "Constraints").all
        (fun p => isOpt p.2) = true) ∧
    ((classProps allTable.length allTable "LegalConstraints").all
        (fun p => isOpt p.2) = true) ∧
    ((classProps allTable.length allTable "SecurityConstraints").filter
        (fun p => !(isOpt p.2)) =
      [("classification", .enum "ClassificationCode")]) ∧
    (conformsB allTable 5 (.vObj "Constraints" []) (.cls "Constraints") =
      true) ∧
    (conformsB allTable 5 (.vObj "LegalConstraints" [])
        (.cls "LegalConstraints") = true) ∧
    ∀ k fs, conformsB allTable k (.vObj "SecurityConstraints" fs)
        (.cls "SecurityConstraints") = true →
      getField fs "classification" ≠ Value.vNone := by
  refine ⟨by decide, by decide, by decide, by decide, by decide, ?_⟩
  intro k fs h hnone
  cases k with
  | zero => simp [conformsB] at h
  | succ k =>
    obtain ⟨-, h2⟩ := conformsB_obj_inv h
    have h3 := h2 ("classification", .enum "ClassificationCode") (by decide)
    rw [hnone, conformsB_vNone_enum] at h3
    exact Bool.false_ne_true h3

/-- Claim C10 witness: a `SecurityConstraints` instance carrying the
"unclassified" classification conforms, and the theorem yields that its
classification field is present. -/
theorem C10_constraints_optionality_witness :
    getField secFields "classification" ≠ Value.vNone :=
  C10_constraints_optionality.2.2.2.2.2 5 secFields (by decide)

end GeoAPI
